import Mathlib

/-!
Shallow embedding of the event/collision core of the `pg_engine` 2D game
engine (files `src/pg_engine/systems/event_system.py`,
`src/pg_engine/systems/collision_system.py`,
`src/pg_engine/systems/base_system_controller.py`), together with theorems
settling the behavioural claims about it.

Python dictionaries are modelled as insertion-ordered association lists
(`List (K × V)` with unique keys), which matches CPython semantics: `get`
walks to the first matching key, assignment to an existing key updates the
value in place, assignment to a fresh key appends.  Object identity is
modelled with numeric ids; `pygame` supplied primitives (the native event
queue, `Event`, `groupcollide`, `collide_mask`) are modelled from their
documented semantics, with the collision predicate kept abstract.
-/

namespace PgEngine

/-! ## Python dict model (insertion-ordered association lists) -/

/-- `d.get(k)`: first binding of `k`, if any. -/
def dget? {K V : Type} [DecidableEq K] : List (K × V) → K → Option V
  | [], _ => none
  | (k', v) :: rest, k => if k = k' then some v else dget? rest k

/-- `d.get(k, v₀)`: lookup with a default. -/
def dgetD {K V : Type} [DecidableEq K] (d : List (K × V)) (k : K) (v₀ : V) : V :=
  (dget? d k).getD v₀

/-- `d[k] = v`: update in place if the key exists, else append (CPython order). -/
def dinsert {K V : Type} [DecidableEq K] : List (K × V) → K → V → List (K × V)
  | [], k, v => [(k, v)]
  | (k', v') :: rest, k, v =>
    if k = k' then (k', v) :: rest else (k', v') :: dinsert rest k v

/-- `del d[k]` (a no-op when the key is absent, mirroring the guarded deletes
in the source). -/
def derase {K V : Type} [DecidableEq K] : List (K × V) → K → List (K × V)
  | [], _ => []
  | (k', v') :: rest, k => if k = k' then rest else (k', v') :: derase rest k

/-! ## Data model: objects, scenes, payload values, events, hooks -/

/-- A routing/owner key as seen by `ListenerContainer`.  `gobj` is a plain
game object (no `source` attribute); `comp` is a component or script object
(its own id plus the id of the game object its `source` attribute resolves
to). -/
inductive Owner
  | gobj : Nat → Owner
  | comp : Nat → Nat → Owner
deriving DecidableEq, Repr

/-- The `hasattr(listener, 'source')` normalisation used on insertion in
`ListenerContainer._add_listener_to`: components are replaced by their
owning game object; plain game objects are left alone. -/
def Owner.normalize : Owner → Owner
  | .gobj g => .gobj g
  | .comp _ src => .gobj src

/-- A scene object: identity plus its `name` attribute. -/
structure SceneObj where
  sid : Nat
  sname : String
deriving DecidableEq, Repr

/-- A key of the broadcast bucket (`dict[int, dict[IScene | None, ...]]`):
at runtime either a scene object or a scene-name string is used (the
`EventListener` protocol passes the string stored in `gameobject.scene`);
Python's `None` key is the surrounding `Option.none`. -/
inductive BKey
  | scn : SceneObj → BKey
  | byName : String → BKey
deriving DecidableEq, Repr

/-- A value stored in an event payload (`pygame.Event` attribute). -/
inductive PVal
  | vobj : Nat → PVal
  | vscene : SceneObj → PVal
  | vnull : PVal
  | vint : Int → PVal
  | vstr : String → PVal
deriving DecidableEq, Repr

/-- A `pygame.Event`: integer type tag plus attribute dict. -/
structure Event where
  etype : Nat
  payload : List (String × PVal)
deriving DecidableEq, Repr

/-- A registered listener callable: the id of the callable itself plus the
object it is bound to (`__self__`), used by `remove_gameobject`'s broadcast
filter. -/
structure Hook where
  hid : Nat
  recv : Owner
deriving DecidableEq, Repr

/-! ## ListenerContainer -/

/-- `ListenerContainer`: `listeners` is the LOCAL bucket
(`dict[int, dict[IGameObject, list[Callable]]]`), `broadcast_listeners`
the BROADCAST / BROADCAST_SCENE bucket. -/
structure ListenerContainer where
  listeners : List (Nat × List (Owner × List Hook))
  broadcast_listeners : List (Nat × List (Option BKey × List Hook))
deriving DecidableEq, Repr

/-- The empty container built by `ListenerContainer.__init__`. -/
def ListenerContainer.empty : ListenerContainer := ⟨[], []⟩

/-- `ListenerContainer._add_listener_to`.  Net effect of the mutations in the
source: the per-type dict is fetched or freshly created, the method list is
fetched *under the un-normalised key*; when that key is absent the key is
normalised (`norm`, the `hasattr(.., 'source')` rewrite, `id` for broadcast
keys) and the (fresh) list is stored under the normalised key, overwriting
any list already there; finally the method is appended to the fetched list. -/
def addListenerTo {K : Type} [DecidableEq K] (norm : K → K) (evtType : Nat)
    (listener : K) (method : Hook) (d : List (Nat × List (K × List Hook))) :
    List (Nat × List (K × List Hook)) :=
  let evtTypeDict := dgetD d evtType []
  let listenerMethods := dgetD evtTypeDict listener []
  let key := if (dget? evtTypeDict listener).isSome then listener else norm listener
  dinsert d evtType (dinsert evtTypeDict key (listenerMethods ++ [method]))

/-- `ListenerContainer.add_listener` (the LOCAL bucket, with `source`
normalisation). -/
def ListenerContainer.add_listener (c : ListenerContainer) (evtType : Nat)
    (listener : Owner) (method : Hook) : ListenerContainer :=
  { c with listeners := addListenerTo Owner.normalize evtType listener method c.listeners }

/-- `ListenerContainer.add_broadcast` (the broadcast bucket; scene objects,
name strings and `None` have no `source` attribute, so normalisation is the
identity there). -/
def ListenerContainer.add_broadcast (c : ListenerContainer) (evtType : Nat)
    (scene : Option BKey) (method : Hook) : ListenerContainer :=
  { c with broadcast_listeners := addListenerTo id evtType scene method c.broadcast_listeners }

/-- `ListenerContainer._read_listener`. -/
def readListener {K : Type} [DecidableEq K] (d : List (Nat × List (K × List Hook)))
    (evtType : Nat) (target : K) : List Hook :=
  dgetD (dgetD d evtType []) target []

/-- `ListenerContainer.get_listeners`: route on the type of the event's
`listener` attribute (absent or `None` → global broadcast bucket; a scene →
broadcast bucket keyed by the scene's *name*; a game object → LOCAL bucket).
`none` is the `NotImplementedError` raised for any other type. -/
def ListenerContainer.get_listeners (c : ListenerContainer) (e : Event) :
    Option (List Hook) :=
  match dget? e.payload "listener" with
  | none => some (readListener c.broadcast_listeners e.etype none)
  | some .vnull => some (readListener c.broadcast_listeners e.etype none)
  | some (.vscene s) =>
      some (readListener c.broadcast_listeners e.etype (some (BKey.byName s.sname)))
  | some (.vobj g) => some (readListener c.listeners e.etype (Owner.gobj g))
  | some _ => none

/-- `ListenerContainer.remove_gameobject`: delete the LOCAL key for the game
object in every per-type dict, and filter the broadcast lists by the bound
receiver (`x.__self__ is not gameobject`). -/
def ListenerContainer.remove_gameobject (c : ListenerContainer) (g : Nat) :
    ListenerContainer where
  listeners := c.listeners.map (fun p => (p.1, derase p.2 (Owner.gobj g)))
  broadcast_listeners := c.broadcast_listeners.map (fun p =>
    (p.1, p.2.map (fun q => (q.1, q.2.filter (fun h => decide (h.recv ≠ Owner.gobj g))))))

/-! ## Event queues and the dispatch loop -/

/-- The two event sinks: the native `pygame` event queue and the engine's
`SystemEventQueue` singleton, both FIFO. -/
structure EvState where
  native : List Event
  sysq : List Event
deriving DecidableEq, Repr

/-- `pygame.QUIT`'s integer value. -/
def QUIT : Nat := 256

/-- `pygame.event.custom_type()` allocations at module import, in order;
the exact integers are allocation dependent, only their distinctness and
stability matter. -/
def NOTIFY : Nat := 32867

def COLLISION : Nat := 32868

def TRIGGER : Nat := 32869

/-- `EventSystem.send`.  `targets is None` posts a single un-targeted event
to the native queue (ignoring `system`); otherwise each target gets its own
event whose payload is `data | {'listener': target}` (a fresh dict per
target), appended to the system queue when `system` is true and posted to
the native queue otherwise. -/
def sendEvent (eventType : Nat) (targets : Option (List PVal))
    (data : List (String × PVal)) (system : Bool) (st : EvState) : EvState :=
  match targets with
  | none => { st with native := st.native ++ [⟨eventType, data⟩] }
  | some ts =>
    ts.foldl (fun s t =>
      let e : Event := ⟨eventType, dinsert data "listener" t⟩
      if system then { s with sysq := s.sysq ++ [e] }
      else { s with native := s.native ++ [e] }) st

/-- `EventSystem.broadcast_scene`: resolve the scene through the game's
`scenes` dict (`.get`, so an unknown name yields Python `None`) and call
`send` with that single-element target list. -/
def broadcastScene (eventType : Nat) (sceneName : String)
    (data : List (String × PVal)) (system : Bool)
    (scenes : List (String × SceneObj)) (st : EvState) : EvState :=
  let scene : PVal :=
    match dget? scenes sceneName with
    | some s => PVal.vscene s
    | none => PVal.vnull
  sendEvent eventType (some [scene]) data system st

/-- `SystemEventQueue.get`: the queue size is sampled once and exactly that
many items are popped, so a single-threaded call returns the whole current
content and leaves the queue empty. -/
def sysQueueGet (q : List Event) : List Event × List Event := (q, [])

/-- The effect a listener callable has on the queues when invoked (listener
bodies are arbitrary engine code; they interact with this core only through
`EventSystem.send`/`SystemEventQueue.put`, i.e. through the `EvState`). -/
abbrev Effect := Hook → Event → EvState → EvState

/-- Outcome of one drain (`EventSystem._eventloop`): the `(callable, event)`
invocations in order, the final queue state, whether a `QUIT` event was seen
(`IGame().stop()`), and whether a `NotImplementedError` escaped. -/
structure LoopResult where
  calls : List (Nat × Event)
  state : EvState
  stopped : Bool
  errored : Bool
deriving Repr

/-- The body of `EventSystem._eventloop` after the source has been drained:
for each event in order, flag `QUIT`, let the UI manager claim the event
(`process_events`; a claimed event is not routed), otherwise look up the
listeners and invoke each in registration order.  An unrecognised routing
target raises, abandoning the remaining events. -/
def procEvents (c : ListenerContainer) (ui : Event → Bool) (eff : Effect) :
    List Event → EvState → Bool → LoopResult
  | [], st, stop => ⟨[], st, stop, false⟩
  | e :: rest, st, stop =>
    let stop1 := stop || (e.etype == QUIT)
    if ui e then procEvents c ui eff rest st stop1
    else
      match c.get_listeners e with
      | none => ⟨[], st, stop1, true⟩
      | some hooks =>
        let st1 := hooks.foldl (fun s h => eff h e s) st
        let r := procEvents c ui eff rest st1 stop1
        ⟨hooks.map (fun h => (h.hid, e)) ++ r.calls, r.state, r.stopped, r.errored⟩

/-- `EventSystem.update` (the gameplay drain): `pygame.event.get()` pops
every native event currently queued, then the popped snapshot is processed;
events posted by listeners land in the live queues for a later drain. -/
def updateGameplay (c : ListenerContainer) (ui : Event → Bool) (eff : Effect)
    (st : EvState) : LoopResult :=
  procEvents c ui eff st.native { st with native := [] } false

/-- `EventSystem.update_system`: same loop, but the source is
`SystemEventQueue.get()`'s snapshot. -/
def updateSystem (c : ListenerContainer) (ui : Event → Bool) (eff : Effect)
    (st : EvState) : LoopResult :=
  let drained := sysQueueGet st.sysq
  procEvents c ui eff drained.1 { st with sysq := drained.2 } false

/-- `EventSystem.register_event_hook` (delegates to
`ListenerContainer.add_listener`). -/
def registerEventHook (c : ListenerContainer) (eventType : Nat)
    (listener : Owner) (hook : Hook) : ListenerContainer :=
  c.add_listener eventType listener hook

/-- `EventSystem.register_broadcast_hook` (delegates to
`ListenerContainer.add_broadcast`). -/
def registerBroadcastHook (c : ListenerContainer) (eventType : Nat)
    (scene : Option BKey) (hook : Hook) : ListenerContainer :=
  c.add_broadcast eventType scene hook

/-! ## CollisionSystem -/

/-- A collider component as the collision pass sees it: identity, owning
game object (`.source`), the `physics` flag, and the owner's scene name
(`.source.scene`, a string compared against `TGame().active_scene`).  The
mask/rect geometry stays abstract in the overlap predicate. -/
structure Collider where
  cid : Nat
  owner : Nat
  physics : Bool
  scene : String
deriving DecidableEq, Repr

/-- The `pygame.sprite.collide_mask` test, abstracted: positioned-bitmap
overlap between two colliders. -/
abbrev Overlap := Collider → Collider → Bool

/-- The module-level `IS_PHYSICS` dict. -/
def IS_PHYSICS : List (Nat × Bool) := [(COLLISION, true), (TRIGGER, false)]

/-- `CollisionSystem` state: named collision layers and the enabled
interactions.  A `frozenset` of two layer names is modelled as an ordered
pair (its iteration order is fixed arbitrarily; a self-interaction, i.e. a
singleton frozenset, is the pair with both components equal, matching
`tuple(interraction) * 2`). -/
structure CollisionSys where
  collision_layers : List (String × List Collider)
  interractions : List (String × String)
deriving Repr

/-- `pygame.sprite.Group` construction de-duplicates (sprites are stored as
dict keys), keeping first occurrences in order. -/
def dedupFirst {α : Type} [DecidableEq α] (l : List α) : List α :=
  l.foldl (fun acc a => if a ∈ acc then acc else acc ++ [a]) []

/-- `CollisionSystem.get_groups`: build one group per layer of the
interaction, filtered to colliders whose `physics` flag matches the pass and
whose owner is in the active scene; a singleton interaction uses the same
layer twice and reports `is_self_collision`. -/
def getGroups (sys : CollisionSys) (activeScene : String)
    (interr : String × String) (physics : Bool) :
    List Collider × List Collider × Bool :=
  let isSelfCollision := interr.1 = interr.2
  let mkGroup := fun (layer : String) =>
    dedupFirst ((dgetD sys.collision_layers layer []).filter
      (fun cl => cl.physics == physics && activeScene == cl.scene))
  (mkGroup interr.1, mkGroup interr.2, isSelfCollision)

/-- `pygame.sprite.groupcollide(g1, g2, False, False, collide_mask)`: a dict
mapping each sprite of `g1`, in group order, to the list of sprites of `g2`
it overlaps; sprites with no collisions get no entry. -/
def groupcollide (ov : Overlap) (g1 g2 : List Collider) :
    List (Collider × List Collider) :=
  (g1.map (fun a => (a, g2.filter (fun b => ov a b)))).filter
    (fun p => !p.2.isEmpty)

/-- `CollisionSystem._create_collision_event`: `send` one event to the
target's owner with payload `{collides: other.owner, dt}`, system-queued
iff `is_system_event`. -/
def createCollisionEvent (eventType : Nat) (target collidesWith : Collider)
    (dt : Int) (isSystemEvent : Bool) (st : EvState) : EvState :=
  sendEvent eventType (some [PVal.vobj target.owner])
    [("collides", PVal.vobj collidesWith.owner), ("dt", PVal.vint dt)]
    isSystemEvent st

/-- `CollisionSystem.handle_collisions`: for each enabled interaction, build
the two groups for the pass implied by `event_type`
(`IS_PHYSICS.get(event_type, False)`), compute the colliding pairs, and for
each pair with distinct owners emit the `(a, b)` event and — unless the
interaction is a self-pair — also the mirrored `(b, a)` event; the `system`
flag of every emitted event is the physics boolean of the pass. -/
def handleCollisions (sys : CollisionSys) (ov : Overlap) (activeScene : String)
    (dt : Int) (eventType : Nat) (st : EvState) : EvState :=
  sys.interractions.foldl (fun st0 interr =>
    let groups := getGroups sys activeScene interr (dgetD IS_PHYSICS eventType false)
    let systemEvent := dgetD IS_PHYSICS eventType false
    (groupcollide ov groups.1 groups.2.1).foldl (fun st1 pr =>
      pr.2.foldl (fun st2 g2sprite =>
        if pr.1.owner = g2sprite.owner then st2
        else
          let st3 := createCollisionEvent eventType pr.1 g2sprite dt systemEvent st2
          if groups.2.2 then st3
          else createCollisionEvent eventType g2sprite pr.1 dt systemEvent st3) st1) st0) st

/-! ## BaseSystemController -/

/-- `BaseSystemController.update`: run each sequence hook and drain the
system queue right after it; an exception escaping a drain aborts the
remaining hooks. -/
def controllerUpdate (c : ListenerContainer) (ui : Event → Bool) (eff : Effect) :
    List (EvState → EvState) → EvState → LoopResult
  | [], st => ⟨[], st, false, false⟩
  | f :: fs, st =>
    let r1 := updateSystem c ui eff (f st)
    if r1.errored then r1
    else
      let r2 := controllerUpdate c ui eff fs r1.state
      ⟨r1.calls ++ r2.calls, r2.state, r1.stopped || r2.stopped, r2.errored⟩

/-- `BaseSystemController.get_sequence_hooks`: the event system's gameplay
drain followed by the collision pass and the trigger pass
(`CollisionSystem.get_sequence_hooks`). -/
def baseSequenceHooks (c : ListenerContainer) (ui : Event → Bool) (eff : Effect)
    (sys : CollisionSys) (ov : Overlap) (activeScene : String) (dt : Int) :
    List (EvState → EvState) :=
  [ fun st => (updateGameplay c ui eff st).state,
    fun st => handleCollisions sys ov activeScene dt COLLISION st,
    fun st => handleCollisions sys ov activeScene dt TRIGGER st ]

/-! ## Dispatch bookkeeping used by the theorems -/

/-- The listeners an event reaches (empty when routing raises). -/
def hooksOf (c : ListenerContainer) (e : Event) : List Hook :=
  (c.get_listeners e).getD []

/-- The invocation trace of dispatching a list of events that nobody
consumes and none of which mis-routes: per event, its hooks in registration
order. -/
def flatCalls (c : ListenerContainer) (evs : List Event) : List (Nat × Event) :=
  evs.flatMap (fun e => (hooksOf c e).map (fun h => (h.hid, e)))

/-- The queue state reached by invoking, for each event in order, each of
its hooks. -/
def effFold (eff : Effect) (c : ListenerContainer) (evs : List Event)
    (st : EvState) : EvState :=
  evs.foldl (fun s e => (hooksOf c e).foldl (fun s2 h => eff h e s2) s) st

/-- The event `send` builds for one target game object. -/
def targetedEvent (eventType : Nat) (data : List (String × PVal)) (g : Nat) :
    Event :=
  ⟨eventType, dinsert data "listener" (PVal.vobj g)⟩

/-- Whether an event's `listener` attribute is the given game object. -/
def addressedTo (g : Nat) (e : Event) : Bool :=
  decide (dget? e.payload "listener" = some (PVal.vobj g))

/-- The event value `_create_collision_event` sends: payload
`{collides, dt}` with the routing `listener` merged in last. -/
def collisionEvent (eventType : Nat) (target other : Collider) (dt : Int) :
    Event :=
  ⟨eventType, [("collides", PVal.vobj other.owner), ("dt", PVal.vint dt),
    ("listener", PVal.vobj target.owner)]⟩

/-- The collision system with every layer restricted to its trigger
(`physics=false`) colliders; used to state that a non-physics pass only ever
looks at trigger colliders. -/
def filterPhysicsFalse (sys : CollisionSys) : CollisionSys where
  collision_layers := sys.collision_layers.map
    (fun p => (p.1, p.2.filter (fun cl => cl.physics == false)))
  interractions := sys.interractions

/-! ## Dictionary lemmas -/

theorem dget?_dinsert_self {K V : Type} [DecidableEq K] (d : List (K × V))
    (k : K) (v : V) : dget? (dinsert d k v) k = some v := by
  induction d with
  | nil => simp [dinsert, dget?]
  | cons hd tl ih =>
    by_cases h : k = hd.1
    · simp [dinsert, dget?, h]
    · simpa [dinsert, dget?, h] using ih

theorem dget?_dinsert_ne {K V : Type} [DecidableEq K] (d : List (K × V))
    (k k' : K) (v : V) (h : k ≠ k') : dget? (dinsert d k' v) k = dget? d k := by
  induction d with
  | nil => simp [dinsert, dget?, h]
  | cons hd tl ih =>
    by_cases h2 : k' = hd.1
    · subst h2
      simp [dinsert, dget?, h]
    · by_cases h3 : k = hd.1 <;> simp [dinsert, dget?, h2, h3, ih]

theorem dget?_map_value {K V W : Type} [DecidableEq K] (d : List (K × V))
    (f : V → W) (k : K) :
    dget? (d.map (fun p => (p.1, f p.2))) k = (dget? d k).map f := by
  induction d with
  | nil => simp [dget?]
  | cons hd tl ih =>
    by_cases h : k = hd.1 <;> simp [dget?, h, ih]

/-- A CPython dict never holds a key twice; the association-list image of a
dict therefore has pairwise distinct keys. -/
def dwf {K V : Type} (d : List (K × V)) : Prop := (d.map Prod.fst).Nodup

instance {K V : Type} [DecidableEq K] (d : List (K × V)) : Decidable (dwf d) :=
  inferInstanceAs (Decidable (d.map Prod.fst).Nodup)

theorem dget?_eq_none_of_not_mem {K V : Type} [DecidableEq K]
    (d : List (K × V)) (k : K) (h : k ∉ d.map Prod.fst) : dget? d k = none := by
  induction d with
  | nil => simp [dget?]
  | cons hd tl ih =>
    simp only [List.map_cons, List.mem_cons] at h
    push_neg at h
    simp [dget?, h.1, ih h.2]

theorem dget?_derase_self {K V : Type} [DecidableEq K] (d : List (K × V))
    (k : K) (h : dwf d) : dget? (derase d k) k = none := by
  induction d with
  | nil => simp [derase, dget?]
  | cons hd tl ih =>
    simp only [dwf, List.map_cons, List.nodup_cons] at h
    by_cases h2 : k = hd.1
    · subst h2
      simpa [derase] using dget?_eq_none_of_not_mem tl _ h.1
    · simp [derase, dget?, h2, ih h.2]

theorem dwf_dinsert {K V : Type} [DecidableEq K] (d : List (K × V))
    (k : K) (v : V) (h : dwf d) : dwf (dinsert d k v) := by
  induction d with
  | nil => simp [dwf, dinsert]
  | cons hd tl ih =>
    simp only [dwf, List.map_cons, List.nodup_cons] at h
    by_cases h2 : k = hd.1
    · simpa [dwf, dinsert, h2] using h
    · have htl := ih h.2
      have hk : hd.1 ∉ (dinsert tl k v).map Prod.fst := by
        have : ∀ l : List (K × V), hd.1 ∉ l.map Prod.fst →
            hd.1 ∉ (dinsert l k v).map Prod.fst := by
          intro l
          induction l with
          | nil =>
            intro _
            simpa [dinsert] using fun hc => h2 hc.symm
          | cons hd2 tl2 ih2 =>
            intro hl
            simp only [List.map_cons, List.mem_cons] at hl
            push_neg at hl
            by_cases h3 : k = hd2.1
            · simp [dinsert, h3, hl.1, hl.2]
            · simp only [dinsert, if_neg h3, List.map_cons, List.mem_cons]
              push_neg
              exact ⟨hl.1, ih2 hl.2⟩
        exact this tl h.1
      have hstep : dinsert (hd :: tl) k v = hd :: dinsert tl k v := by
        simp [dinsert, h2]
      rw [dwf, hstep, List.map_cons]
      exact List.nodup_cons.mpr ⟨hk, htl⟩

/-! ## Dispatch-loop lemmas -/

theorem procEvents_char (c : ListenerContainer) (ui : Event → Bool)
    (eff : Effect) (evs : List Event) (st : EvState) (stop : Bool)
    (hui : ∀ e ∈ evs, ui e = false)
    (hsome : ∀ e ∈ evs, (c.get_listeners e).isSome) :
    procEvents c ui eff evs st stop =
      ⟨flatCalls c evs, effFold eff c evs st,
        stop || evs.any (fun e => e.etype == QUIT), false⟩ := by
  induction evs generalizing st stop with
  | nil => simp [procEvents, flatCalls, effFold]
  | cons e rest ih =>
    have hue : ui e = false := hui e (List.mem_cons_self _ _)
    obtain ⟨hooks, hh⟩ := Option.isSome_iff_exists.mp
      (hsome e (List.mem_cons_self _ _))
    have ih2 := ih (hooks.foldl (fun s h => eff h e s) st)
      (stop || (e.etype == QUIT))
      (fun x hx => hui x (List.mem_cons_of_mem _ hx))
      (fun x hx => hsome x (List.mem_cons_of_mem _ hx))
    simp only [procEvents, hue, Bool.false_eq_true, if_false, hh, ih2]
    simp only [LoopResult.mk.injEq]
    refine ⟨?_, ?_, ?_, trivial⟩
    · simp [flatCalls, hooksOf, hh]
    · simp [effFold, hooksOf, hh]
    · simp [Bool.or_assoc]

theorem flatCalls_mem (c : ListenerContainer) (evs : List Event) (e : Event)
    (h : Hook) (he : e ∈ evs) (hh : h ∈ hooksOf c e) :
    (h.hid, e) ∈ flatCalls c evs := by
  simp only [flatCalls, List.mem_flatMap]
  exact ⟨e, he, List.mem_map.mpr ⟨h, hh, rfl⟩⟩

theorem foldl_eff_sysq (eff : Effect) (e : Event) (hooks : List Hook)
    (st : EvState) (heff : ∀ h e s, (eff h e s).sysq = s.sysq) :
    (hooks.foldl (fun s h => eff h e s) st).sysq = st.sysq := by
  induction hooks generalizing st with
  | nil => rfl
  | cons hd tl ih => rw [List.foldl_cons, ih, heff]

theorem procEvents_sysq (c : ListenerContainer) (ui : Event → Bool)
    (eff : Effect) (evs : List Event) (st : EvState) (stop : Bool)
    (heff : ∀ h e s, (eff h e s).sysq = s.sysq) :
    (procEvents c ui eff evs st stop).state.sysq = st.sysq := by
  induction evs generalizing st stop with
  | nil => rfl
  | cons e rest ih =>
    simp only [procEvents]
    by_cases hu : ui e
    · simp only [hu, if_true]
      exact ih st _
    · simp only [hu, if_false, Bool.false_eq_true]
      cases hls : c.get_listeners e with
      | none => rfl
      | some hooks =>
        simp only []
        rw [ih _ _, foldl_eff_sysq eff e hooks st heff]

theorem updateSystem_sysq (c : ListenerContainer) (ui : Event → Bool)
    (eff : Effect) (st : EvState)
    (heff : ∀ h e s, (eff h e s).sysq = s.sysq) :
    (updateSystem c ui eff st).state.sysq = [] := by
  simpa [updateSystem, sysQueueGet] using
    procEvents_sysq c ui eff st.sysq { st with sysq := [] } false heff

theorem updateGameplay_sysq (c : ListenerContainer) (ui : Event → Bool)
    (eff : Effect) (st : EvState)
    (heff : ∀ h e s, (eff h e s).sysq = s.sysq) :
    (updateGameplay c ui eff st).state.sysq = st.sysq := by
  simpa [updateGameplay] using
    procEvents_sysq c ui eff st.native { st with native := [] } false heff

theorem controllerUpdate_sysq (c : ListenerContainer) (ui : Event → Bool)
    (eff : Effect) (fs : List (EvState → EvState)) (st : EvState)
    (heff : ∀ h e s, (eff h e s).sysq = s.sysq) (hfs : fs ≠ []) :
    (controllerUpdate c ui eff fs st).state.sysq = [] := by
  induction fs generalizing st with
  | nil => exact absurd rfl hfs
  | cons f rest ih =>
    simp only [controllerUpdate]
    by_cases he : (updateSystem c ui eff (f st)).errored
    · simp only [he, if_true]
      exact updateSystem_sysq c ui eff (f st) heff
    · simp only [he, if_false, Bool.false_eq_true]
      cases hr : rest with
      | nil =>
        simp [controllerUpdate, updateSystem_sysq c ui eff (f st) heff]
      | cons g more =>
        rw [← hr]
        exact ih _ (by simp [hr])

/-! ## `send` lemmas -/

theorem sendEvent_vobj_false (et : Nat) (ts : List Nat)
    (data : List (String × PVal)) (st : EvState) :
    sendEvent et (some (ts.map PVal.vobj)) data false st =
      { st with native := st.native ++ ts.map (targetedEvent et data) } := by
  induction ts generalizing st with
  | nil => simp [sendEvent]
  | cons t rest ih =>
    simp only [List.map_cons, sendEvent, List.foldl_cons, Bool.false_eq_true,
      if_false] at ih ⊢
    rw [ih]
    simp [targetedEvent]

theorem addressedTo_targetedEvent (et : Nat) (data : List (String × PVal))
    (g g' : Nat) :
    addressedTo g (targetedEvent et data g') = decide (g' = g) := by
  unfold addressedTo targetedEvent
  simp only [dget?_dinsert_self]
  simp [decide_eq_decide]

theorem filter_addressed_not_mem (et : Nat) (data : List (String × PVal))
    (ts : List Nat) (t : Nat) (h : t ∉ ts) :
    (ts.map (targetedEvent et data)).filter (addressedTo t) = [] := by
  rw [List.filter_eq_nil_iff]
  intro e he
  obtain ⟨t', ht', rfl⟩ := List.mem_map.mp he
  rw [addressedTo_targetedEvent]
  simp only [decide_eq_true_eq]
  intro hc
  exact h (hc ▸ ht')

theorem filter_addressed_nodup (et : Nat) (data : List (String × PVal))
    (ts : List Nat) (t : Nat) (hnd : ts.Nodup) (hmem : t ∈ ts) :
    (ts.map (targetedEvent et data)).filter (addressedTo t) =
      [targetedEvent et data t] := by
  induction ts with
  | nil => cases hmem
  | cons t' rest ih =>
    rw [List.nodup_cons] at hnd
    by_cases h : t' = t
    · subst h
      simp only [List.map_cons, List.filter_cons, addressedTo_targetedEvent,
        decide_True, if_true]
      rw [filter_addressed_not_mem et data rest t' hnd.1]
    · rcases List.mem_cons.mp hmem with h2 | h2
      · exact absurd h2.symm h
      · simp only [List.map_cons, List.filter_cons, addressedTo_targetedEvent,
          h, decide_False]
        exact ih hnd.2 h2

theorem get_listeners_targeted (c : ListenerContainer) (et : Nat)
    (data : List (String × PVal)) (g : Nat) :
    c.get_listeners (targetedEvent et data g) =
      some (readListener c.listeners et (Owner.gobj g)) := by
  simp [ListenerContainer.get_listeners, targetedEvent, dget?_dinsert_self]

theorem flatCalls_filter_addressed (c : ListenerContainer) (evs : List Event)
    (t : Nat) :
    (flatCalls c evs).filter (fun pr => addressedTo t pr.2) =
      flatCalls c (evs.filter (addressedTo t)) := by
  induction evs with
  | nil => rfl
  | cons e rest ih =>
    simp only [flatCalls, List.flatMap_cons, List.filter_append,
      List.filter_cons] at ih ⊢
    cases ha : addressedTo t e with
    | true =>
      simp only [if_true]
      rw [List.filter_eq_self.mpr, ih]
      · simp [flatCalls]
      · intro pr hpr
        obtain ⟨h, _, rfl⟩ := List.mem_map.mp hpr
        exact ha
    | false =>
      simp only [Bool.false_eq_true, if_false]
      rw [List.filter_eq_nil_iff.mpr, ih]
      · simp [flatCalls]
      · intro pr hpr
        obtain ⟨h, _, rfl⟩ := List.mem_map.mp hpr
        simp [ha]

/-! ## Claim C6 -/

/-- C6: a drain of the `SystemEventQueue` removes and processes exactly the
events present when the drain starts, in FIFO order — the queue size is
sampled once and only that many items are popped, so system events enqueued
by a handler during the drain (any `eff`) are not processed in the same
drain (the invocation trace depends only on the snapshot, and the handlers'
enqueues survive into the final state untouched); and two successive drains
with no intervening put return the empty list the second time. -/
theorem C6_system_drain_is_snapshot (c : ListenerContainer) (ui : Event → Bool)
    (eff : Effect) (st : EvState)
    (hui : ∀ e ∈ st.sysq, ui e = false)
    (hsome : ∀ e ∈ st.sysq, (c.get_listeners e).isSome) :
    (updateSystem c ui eff st).calls = flatCalls c st.sysq ∧
    (updateSystem c ui eff st).state =
      effFold eff c st.sysq { st with sysq := [] } ∧
    (sysQueueGet (sysQueueGet st.sysq).2).1 = [] := by
  have h := procEvents_char c ui eff st.sysq { st with sysq := [] } false hui hsome
  refine ⟨?_, ?_, rfl⟩ <;> simp [updateSystem, sysQueueGet, h]

/-- Witness for C6 at a concrete queue holding one broadcast event. -/
theorem C6_system_drain_is_snapshot_witness :
    ((∀ e ∈ (⟨[], [⟨3, []⟩]⟩ : EvState).sysq, (fun _ : Event => false) e = false) ∧
     (∀ e ∈ (⟨[], [⟨3, []⟩]⟩ : EvState).sysq,
        (ListenerContainer.empty.get_listeners e).isSome)) ∧
    ((updateSystem ListenerContainer.empty (fun _ => false) (fun _ _ s => s)
        ⟨[], [⟨3, []⟩]⟩).calls = flatCalls ListenerContainer.empty [⟨3, []⟩] ∧
     (updateSystem ListenerContainer.empty (fun _ => false) (fun _ _ s => s)
        ⟨[], [⟨3, []⟩]⟩).state =
        effFold (fun _ _ s => s) ListenerContainer.empty [⟨3, []⟩] ⟨[], []⟩ ∧
     (sysQueueGet (sysQueueGet (⟨[], [⟨3, []⟩]⟩ : EvState).sysq).2).1 = []) :=
  ⟨⟨by decide, by decide⟩,
    C6_system_drain_is_snapshot ListenerContainer.empty (fun _ => false)
      (fun _ _ s => s) ⟨[], [⟨3, []⟩]⟩ (by decide) (by decide)⟩

/-! ## Claim C7 -/

theorem dget?_mem {K V : Type} [DecidableEq K] {d : List (K × V)} {k : K}
    {v : V} (h : dget? d k = some v) : ∃ p ∈ d, p.1 = k ∧ p.2 = v := by
  induction d with
  | nil => simp [dget?] at h
  | cons hd tl ih =>
    obtain ⟨k1, v1⟩ := hd
    by_cases h2 : k = k1
    · rw [dget?, if_pos h2] at h
      exact ⟨(k1, v1), List.mem_cons_self _ _, h2.symm, (Option.some.injEq _ _).mp h⟩
    · rw [dget?, if_neg h2] at h
      obtain ⟨p, hp, hp1, hp2⟩ := ih h
      exact ⟨p, List.mem_cons_of_mem _ hp, hp1, hp2⟩

theorem dwf_buckets_dinsert {K : Type} [DecidableEq K]
    (d : List (Nat × List (K × List Hook))) (ky : Nat)
    (v : List (K × List Hook)) (hd : ∀ q ∈ d, dwf q.2) (hv : dwf v) :
    ∀ q ∈ dinsert d ky v, dwf q.2 := by
  induction d with
  | nil =>
    intro q hq
    simp only [dinsert, List.mem_singleton] at hq
    simpa [hq]
  | cons hd2 tl ih =>
    intro q hq
    obtain ⟨k1, v1⟩ := hd2
    by_cases h : ky = k1
    · rw [dinsert, if_pos h] at hq
      rcases List.mem_cons.mp hq with h2 | h2
      · simpa [h2]
      · exact hd q (List.mem_cons_of_mem _ h2)
    · rw [dinsert, if_neg h] at hq
      rcases List.mem_cons.mp hq with h2 | h2
      · exact hd _ (h2 ▸ List.mem_cons_self _ _)
      · exact ih (fun r hr => hd r (List.mem_cons_of_mem _ hr)) _ h2

/-- C7: after `EventSystem.remove_gameobject(obj)` — for any container whose
per-type LOCAL dicts are well-formed dicts (unique keys, as CPython
guarantees) — dispatching an event targeting `obj` finds zero listeners;
every broadcast bucket lookup yields only hooks not bound to `obj`; and
registering a LOCAL hook for `obj` and then removing the game object is a
no-op round trip (a matching event again finds zero listeners). -/
theorem C7_remove_gameobject_silences (c : ListenerContainer) (g : Nat)
    (et : Nat) (data : List (String × PVal)) (k : Option BKey) (hook : Hook)
    (hwf : ∀ p ∈ c.listeners, dwf p.2) :
    ((c.remove_gameobject g).get_listeners
        ⟨et, dinsert data "listener" (PVal.vobj g)⟩ = some []) ∧
    ((readListener (c.remove_gameobject g).broadcast_listeners et k).all
        (fun h => decide (h.recv ≠ Owner.gobj g)) = true) ∧
    (((registerEventHook c et (Owner.gobj g) hook).remove_gameobject g).get_listeners
        ⟨et, dinsert data "listener" (PVal.vobj g)⟩ = some []) := by
  have main : ∀ c2 : ListenerContainer, (∀ p ∈ c2.listeners, dwf p.2) →
      (c2.remove_gameobject g).get_listeners
        ⟨et, dinsert data "listener" (PVal.vobj g)⟩ = some [] := by
    intro c2 hwf2
    simp only [ListenerContainer.get_listeners, dget?_dinsert_self]
    congr 1
    simp only [readListener, ListenerContainer.remove_gameobject, dgetD]
    rw [dget?_map_value c2.listeners (fun v => derase v (Owner.gobj g)) et]
    cases hb : dget? c2.listeners et with
    | none => simp [dget?]
    | some bucket =>
      obtain ⟨p, hp, hp1, hp2⟩ := dget?_mem hb
      have hbwf : dwf bucket := hp2 ▸ hwf2 p hp
      simp [dget?_derase_self bucket (Owner.gobj g) hbwf]
  refine ⟨main c hwf, ?_, ?_⟩
  · simp only [readListener, ListenerContainer.remove_gameobject, dgetD]
    rw [dget?_map_value c.broadcast_listeners (fun v => v.map
      (fun q => (q.1, q.2.filter (fun h => decide (h.recv ≠ Owner.gobj g))))) et]
    cases hb : dget? c.broadcast_listeners et with
    | none => simp [dget?]
    | some bucket =>
      simp only [Option.map_some', Option.getD_some]
      rw [dget?_map_value bucket (fun hs => hs.filter
        (fun h => decide (h.recv ≠ Owner.gobj g))) k]
      cases hk : dget? bucket k with
      | none => simp
      | some hooks =>
        simp only [Option.map_some', Option.getD_some, List.all_eq_true]
        intro h hm
        exact (List.mem_filter.mp hm).2
  · refine main _ ?_
    intro p hp
    simp only [registerEventHook, ListenerContainer.add_listener,
      addListenerTo] at hp
    refine dwf_buckets_dinsert c.listeners et _ hwf ?_ p hp
    refine dwf_dinsert _ _ _ ?_
    cases hb : dget? c.listeners et with
    | none => simp [dgetD, hb, dwf]
    | some bucket =>
      obtain ⟨q, hq, _, hq2⟩ := dget?_mem hb
      simpa [dgetD, hb] using hq2 ▸ hwf q hq

/-- Witness for C7 on a container with one LOCAL and one broadcast hook
bound to game object 3. -/
theorem C7_remove_gameobject_silences_witness :
    (∀ p ∈ (registerBroadcastHook (registerEventHook ListenerContainer.empty
        5 (Owner.gobj 3) ⟨1, Owner.gobj 3⟩) 5 none ⟨2, Owner.gobj 3⟩).listeners,
      dwf p.2) ∧
    (((registerBroadcastHook (registerEventHook ListenerContainer.empty
          5 (Owner.gobj 3) ⟨1, Owner.gobj 3⟩) 5 none
          ⟨2, Owner.gobj 3⟩).remove_gameobject 3).get_listeners
        ⟨5, dinsert [] "listener" (PVal.vobj 3)⟩ = some []) ∧
    ((readListener ((registerBroadcastHook (registerEventHook
          ListenerContainer.empty 5 (Owner.gobj 3) ⟨1, Owner.gobj 3⟩) 5 none
          ⟨2, Owner.gobj 3⟩).remove_gameobject 3).broadcast_listeners 5 none).all
        (fun h => decide (h.recv ≠ Owner.gobj 3)) = true) ∧
    ((((registerEventHook (registerBroadcastHook (registerEventHook
            ListenerContainer.empty 5 (Owner.gobj 3) ⟨1, Owner.gobj 3⟩) 5 none
            ⟨2, Owner.gobj 3⟩) 5 (Owner.gobj 3) ⟨4, Owner.gobj 3⟩).remove_gameobject
          3).get_listeners ⟨5, dinsert [] "listener" (PVal.vobj 3)⟩) = some []) := by
  have h := C7_remove_gameobject_silences
    (registerBroadcastHook (registerEventHook ListenerContainer.empty
      5 (Owner.gobj 3) ⟨1, Owner.gobj 3⟩) 5 none ⟨2, Owner.gobj 3⟩)
    3 5 [] none ⟨4, Owner.gobj 3⟩ (by decide)
  exact ⟨by decide, h.1, h.2.1, h.2.2⟩

/-! ## Claim C1 -/

/-- C1: `EventSystem.send(event_type, targets, data, system=False)` with a
non-empty duplicate-free target list posts, onto an empty native queue, one
event per target in target order whose payload is `data` with `listener`
merged in; each target is addressed by exactly one posted event; during the
subsequent gameplay drain (with the UI layer claiming nothing) the
invocations addressed to a target are exactly one invocation per LOCAL
listener of that target, all carrying that target's own event; and the
payloads built for distinct targets are distinct independent values, each a
function of `data` and the target alone. -/
theorem C1_send_targets_exactly_once (c : ListenerContainer)
    (ui : Event → Bool) (eff : Effect) (et : Nat) (ts : List Nat)
    (data : List (String × PVal)) (st : EvState)
    (hne : ts ≠ []) (hnd : ts.Nodup) (hnat : st.native = [])
    (hui : ∀ e, ui e = false) :
    ((sendEvent et (some (ts.map PVal.vobj)) data false st).native
        = ts.map (targetedEvent et data)) ∧
    (∀ t ∈ ts,
      (sendEvent et (some (ts.map PVal.vobj)) data false st).native.filter
          (addressedTo t) = [targetedEvent et data t]) ∧
    (∀ t ∈ ts,
      ((updateGameplay c ui eff
            (sendEvent et (some (ts.map PVal.vobj)) data false st)).calls.filter
          (fun pr => addressedTo t pr.2))
        = (readListener c.listeners et (Owner.gobj t)).map
            (fun h => (h.hid, targetedEvent et data t))) ∧
    (∀ t ∈ ts, ∀ u ∈ ts, t ≠ u →
      (targetedEvent et data t).payload ≠ (targetedEvent et data u).payload) := by
  have hsent : sendEvent et (some (ts.map PVal.vobj)) data false st =
      { st with native := st.native ++ ts.map (targetedEvent et data) } :=
    sendEvent_vobj_false et ts data st
  have hnative : (sendEvent et (some (ts.map PVal.vobj)) data false st).native
      = ts.map (targetedEvent et data) := by
    rw [hsent, hnat]
    simp
  refine ⟨hnative, ?_, ?_, ?_⟩
  · intro t ht
    rw [hnative]
    exact filter_addressed_nodup et data ts t hnd ht
  · intro t ht
    have hchar := procEvents_char c ui eff
      (sendEvent et (some (ts.map PVal.vobj)) data false st).native
      { sendEvent et (some (ts.map PVal.vobj)) data false st with native := [] }
      false (fun e _ => hui e)
      (by
        intro e he
        rw [hnative] at he
        obtain ⟨u, _, rfl⟩ := List.mem_map.mp he
        rw [get_listeners_targeted]
        rfl)
    rw [updateGameplay, hchar]
    simp only []
    rw [flatCalls_filter_addressed, hnative,
      filter_addressed_nodup et data ts t hnd ht]
    simp [flatCalls, hooksOf, get_listeners_targeted]
  · intro t ht u hu htu hpay
    have h1 : dget? (targetedEvent et data t).payload "listener"
        = some (PVal.vobj t) := dget?_dinsert_self data "listener" _
    have h2 : dget? (targetedEvent et data u).payload "listener"
        = some (PVal.vobj u) := dget?_dinsert_self data "listener" _
    rw [hpay, h2] at h1
    refine htu ?_
    injection h1 with h3
    injection h3 with h4
    exact h4.symm

/-- Witness for C1: two targets, one data key, an empty container. -/
theorem C1_send_targets_exactly_once_witness :
    (([1, 2] : List Nat) ≠ [] ∧ ([1, 2] : List Nat).Nodup ∧
      (⟨[], []⟩ : EvState).native = [] ∧
      (∀ e : Event, (fun _ : Event => false) e = false)) ∧
    ((sendEvent 5 (some ([1, 2].map PVal.vobj)) [("k", PVal.vint 9)] false
        ⟨[], []⟩).native = [1, 2].map (targetedEvent 5 [("k", PVal.vint 9)]) ∧
     (∀ t ∈ ([1, 2] : List Nat),
        (sendEvent 5 (some ([1, 2].map PVal.vobj)) [("k", PVal.vint 9)] false
            ⟨[], []⟩).native.filter (addressedTo t)
          = [targetedEvent 5 [("k", PVal.vint 9)] t]) ∧
     (∀ t ∈ ([1, 2] : List Nat),
        ((updateGameplay ListenerContainer.empty (fun _ => false)
              (fun _ _ s => s)
              (sendEvent 5 (some ([1, 2].map PVal.vobj)) [("k", PVal.vint 9)]
                false ⟨[], []⟩)).calls.filter (fun pr => addressedTo t pr.2))
          = (readListener ListenerContainer.empty.listeners 5
              (Owner.gobj t)).map
              (fun h => (h.hid, targetedEvent 5 [("k", PVal.vint 9)] t))) ∧
     (∀ t ∈ ([1, 2] : List Nat), ∀ u ∈ ([1, 2] : List Nat), t ≠ u →
        (targetedEvent 5 [("k", PVal.vint 9)] t).payload
          ≠ (targetedEvent 5 [("k", PVal.vint 9)] u).payload)) :=
  ⟨⟨by decide, by decide, rfl, fun _ => rfl⟩,
    C1_send_targets_exactly_once ListenerContainer.empty (fun _ => false)
      (fun _ _ s => s) 5 [1, 2] [("k", PVal.vint 9)] ⟨[], []⟩
      (by decide) (by decide) rfl (fun _ => rfl)⟩

/-! ## Collision-pass lemmas -/

theorem dinsert_collides_dt (x y v : PVal) :
    dinsert [("collides", x), ("dt", y)] "listener" v =
      [("collides", x), ("dt", y), ("listener", v)] := by
  have h1 : ¬("listener" = "collides") := by decide
  have h2 : ¬("listener" = "dt") := by decide
  simp [dinsert, h1, h2]

theorem createCollisionEvent_eq (et : Nat) (t o : Collider) (dt : Int)
    (b : Bool) (st : EvState) :
    createCollisionEvent et t o dt b st =
      if b then { st with sysq := st.sysq ++ [collisionEvent et t o dt] }
      else { st with native := st.native ++ [collisionEvent et t o dt] } := by
  cases b <;>
    simp [createCollisionEvent, sendEvent, collisionEvent, dinsert_collides_dt]

theorem foldl_preserve {α β : Type} (P : β → Prop) (step : β → α → β)
    (h : ∀ s a, P s → P (step s a)) :
    ∀ (l : List α) (s : β), P s → P (l.foldl step s) := by
  intro l
  induction l with
  | nil => exact fun s hs => hs
  | cons hd tl ih => exact fun s hs => ih _ (h s hd hs)

theorem foldl_ext {α β : Type} (f g : β → α → β) (h : ∀ s a, f s a = g s a) :
    ∀ (l : List α) (s : β), l.foldl f s = l.foldl g s := by
  intro l
  induction l with
  | nil => exact fun s => rfl
  | cons hd tl ih =>
    intro s
    rw [List.foldl_cons, List.foldl_cons, h, ih]

theorem IS_PHYSICS_other (et : Nat) (h1 : et ≠ COLLISION) (h2 : et ≠ TRIGGER) :
    dgetD IS_PHYSICS et false = false := by
  simp [IS_PHYSICS, dgetD, dget?, h1, h2]

/-- Any property of the queue state preserved by
`_create_collision_event` (at the pass's own physics flag) is preserved by
a whole `handle_collisions` call. -/
theorem handleCollisions_invariant (sys : CollisionSys) (ov : Overlap)
    (activeScene : String) (dt : Int) (et : Nat) (st : EvState)
    (P : EvState → Prop)
    (hstep : ∀ x y s, P s →
      P (createCollisionEvent et x y dt (dgetD IS_PHYSICS et false) s))
    (h : P st) : P (handleCollisions sys ov activeScene dt et st) := by
  unfold handleCollisions
  refine foldl_preserve P _ ?_ _ _ h
  intro s interr hs
  refine foldl_preserve P _ ?_ _ _ hs
  intro s1 pr hs1
  refine foldl_preserve P _ ?_ _ _ hs1
  intro s2 g2s hs2
  by_cases hcase : pr.1.owner = g2s.owner
  · simpa [hcase] using hs2
  · by_cases hsg :
      (getGroups sys activeScene interr (dgetD IS_PHYSICS et false)).2.2
    · simpa [hcase, hsg] using hstep _ _ _ hs2
    · simpa [hcase, hsg] using hstep _ _ _ (hstep _ _ _ hs2)

theorem filter_physics_absorb (l : List Collider) (p : Collider → Bool) :
    (l.filter (fun cl => cl.physics == false)).filter
        (fun cl => cl.physics == false && p cl) =
      l.filter (fun cl => cl.physics == false && p cl) := by
  rw [List.filter_filter]
  refine List.filter_congr ?_
  intro cl _
  cases hcl : cl.physics <;> simp [hcl]

theorem getGroups_filterFalse (sys : CollisionSys) (activeScene : String)
    (interr : String × String) :
    getGroups (filterPhysicsFalse sys) activeScene interr false =
      getGroups sys activeScene interr false := by
  unfold getGroups filterPhysicsFalse
  have hlayer : ∀ layer : String,
      dedupFirst ((dgetD (sys.collision_layers.map
          (fun p => (p.1, p.2.filter (fun cl => cl.physics == false)))) layer []).filter
        (fun cl => cl.physics == false && activeScene == cl.scene)) =
      dedupFirst ((dgetD sys.collision_layers layer []).filter
        (fun cl => cl.physics == false && activeScene == cl.scene)) := by
    intro layer
    congr 1
    simp only [dgetD]
    rw [dget?_map_value sys.collision_layers
      (fun v => v.filter (fun cl => cl.physics == false)) layer]
    cases hb : dget? sys.collision_layers layer with
    | none => simp
    | some L =>
      simp only [Option.map_some', Option.getD_some]
      exact filter_physics_absorb L _
  dsimp only
  rw [hlayer interr.1, hlayer interr.2]

/-! ## Claim C2 -/

/-- C2: colliders `A` and `B` in distinct layers with an enabled interaction
between those layers, both with the pass's physics flag, both owners in the
active scene, overlapping masks and distinct owners — one `handle_collisions`
call for the pass emits exactly two events, one to `A`'s owner with
`collides = B.owner` and one to `B`'s owner with `collides = A.owner`; in
the solid-collision pass (`b = true`, event type `COLLISION`) both go to the
`SystemEventQueue`, and in the trigger pass (`b = false`, `TRIGGER`) both
are posted to the native queue. -/
theorem C2_cross_layer_pair_two_events (A B : Collider) (lA lB : String)
    (ov : Overlap) (activeScene : String) (dt : Int) (st : EvState) (b : Bool)
    (hlay : lA ≠ lB) (hA : A.physics = b) (hB : B.physics = b)
    (hsA : A.scene = activeScene) (hsB : B.scene = activeScene)
    (hov : ov A B = true) (hown : A.owner ≠ B.owner) :
    handleCollisions ⟨[(lA, [A]), (lB, [B])], [(lA, lB)]⟩ ov activeScene dt
        (if b then COLLISION else TRIGGER) st =
      (if b then
        { st with sysq := st.sysq ++
            [collisionEvent COLLISION A B dt, collisionEvent COLLISION B A dt] }
      else
        { st with native := st.native ++
            [collisionEvent TRIGGER A B dt, collisionEvent TRIGGER B A dt] }) := by
  have hlay2 : lB ≠ lA := Ne.symm hlay
  cases b with
  | true =>
    simp only [if_true]
    simp [handleCollisions, getGroups, groupcollide, dedupFirst, IS_PHYSICS,
      dgetD, dget?, hlay, hlay2, hA, hB, hsA, hsB, hov, hown,
      createCollisionEvent_eq, COLLISION, TRIGGER]
  | false =>
    simp only [Bool.false_eq_true, if_false]
    simp [handleCollisions, getGroups, groupcollide, dedupFirst, IS_PHYSICS,
      dgetD, dget?, hlay, hlay2, hA, hB, hsA, hsB, hov, hown,
      createCollisionEvent_eq, COLLISION, TRIGGER]

/-- Witness for C2: a solid-collision pass over layers `"p"` and `"e"`. -/
theorem C2_cross_layer_pair_two_events_witness :
    (("p" : String) ≠ "e" ∧
      (⟨0, 1, true, "s"⟩ : Collider).physics = true ∧
      (⟨1, 2, true, "s"⟩ : Collider).physics = true ∧
      (⟨0, 1, true, "s"⟩ : Collider).scene = "s" ∧
      (⟨1, 2, true, "s"⟩ : Collider).scene = "s" ∧
      (fun _ _ : Collider => true) ⟨0, 1, true, "s"⟩ ⟨1, 2, true, "s"⟩ = true ∧
      (⟨0, 1, true, "s"⟩ : Collider).owner ≠ (⟨1, 2, true, "s"⟩ : Collider).owner) ∧
    handleCollisions ⟨[("p", [⟨0, 1, true, "s"⟩]), ("e", [⟨1, 2, true, "s"⟩])],
        [("p", "e")]⟩ (fun _ _ => true) "s" 16
        (if true then COLLISION else TRIGGER) ⟨[], []⟩ =
      (if true then
        { (⟨[], []⟩ : EvState) with sysq := (⟨[], []⟩ : EvState).sysq ++
            [collisionEvent COLLISION ⟨0, 1, true, "s"⟩ ⟨1, 2, true, "s"⟩ 16,
             collisionEvent COLLISION ⟨1, 2, true, "s"⟩ ⟨0, 1, true, "s"⟩ 16] }
      else
        { (⟨[], []⟩ : EvState) with native := (⟨[], []⟩ : EvState).native ++
            [collisionEvent TRIGGER ⟨0, 1, true, "s"⟩ ⟨1, 2, true, "s"⟩ 16,
             collisionEvent TRIGGER ⟨1, 2, true, "s"⟩ ⟨0, 1, true, "s"⟩ 16] }) :=
  ⟨⟨by decide, rfl, rfl, rfl, rfl, rfl, by decide⟩,
    C2_cross_layer_pair_two_events ⟨0, 1, true, "s"⟩ ⟨1, 2, true, "s"⟩ "p" "e"
      (fun _ _ => true) "s" 16 ⟨[], []⟩ true (by decide) rfl rfl rfl rfl rfl
      (by decide)⟩

/-! ## Claim C3 -/

/-- C3 counterexample: in a self-pair interaction on layer `"L"` with two
overlapping colliders owned by game objects 1 and 2, one `handle_collisions`
call emits the `(a, b)` event *and* the mirrored `(b, a)` event (from `b`'s
own entry of the `groupcollide` dict), refuting the claim that the mirrored
event is never emitted once `(a, b)` has been. -/
theorem C3_self_pair_mirror_emitted_counterexample :
    (handleCollisions ⟨[("L", [⟨0, 1, true, "s"⟩, ⟨1, 2, true, "s"⟩])],
        [("L", "L")]⟩ (fun _ _ => true) "s" 16 COLLISION ⟨[], []⟩).sysq =
      [collisionEvent COLLISION ⟨0, 1, true, "s"⟩ ⟨1, 2, true, "s"⟩ 16,
       collisionEvent COLLISION ⟨1, 2, true, "s"⟩ ⟨0, 1, true, "s"⟩ 16] ∧
    collisionEvent COLLISION ⟨1, 2, true, "s"⟩ ⟨0, 1, true, "s"⟩ 16 ∈
      (handleCollisions ⟨[("L", [⟨0, 1, true, "s"⟩, ⟨1, 2, true, "s"⟩])],
        [("L", "L")]⟩ (fun _ _ => true) "s" 16 COLLISION ⟨[], []⟩).sysq := by
  constructor
  · rfl
  · decide

/-- C3 (amended): for a self-pair interaction and an overlapping
distinct-owner pair `a, b`, one `handle_collisions` call emits the `(a, b)`
event and the mirrored `(b, a)` event exactly once each; the `is_self_pair`
suppression only prevents the duplicate that would otherwise fire each
direction twice — it does not suppress the mirrored event itself, which is
still emitted once from `b`'s own entry of the collision dict. -/
theorem C3_self_pair_each_direction_once (a b : Collider) (l : String)
    (ov : Overlap) (activeScene : String) (dt : Int) (st : EvState) (bb : Bool)
    (hA : a.physics = bb) (hB : b.physics = bb)
    (hsA : a.scene = activeScene) (hsB : b.scene = activeScene)
    (hab : ov a b = true) (hba : ov b a = true)
    (haa : ov a a = true) (hbb : ov b b = true)
    (hown : a.owner ≠ b.owner) :
    handleCollisions ⟨[(l, [a, b])], [(l, l)]⟩ ov activeScene dt
        (if bb then COLLISION else TRIGGER) st =
      (if bb then
        { st with sysq := st.sysq ++
            [collisionEvent COLLISION a b dt, collisionEvent COLLISION b a dt] }
      else
        { st with native := st.native ++
            [collisionEvent TRIGGER a b dt, collisionEvent TRIGGER b a dt] }) := by
  have hne : b ≠ a := fun h => hown (by rw [h])
  have hown2 : b.owner ≠ a.owner := Ne.symm hown
  cases bb with
  | true =>
    simp only [if_true]
    simp [handleCollisions, getGroups, groupcollide, dedupFirst, IS_PHYSICS,
      dgetD, dget?, hA, hB, hsA, hsB, hab, hba, haa, hbb, hown, hown2, hne,
      createCollisionEvent_eq, COLLISION, TRIGGER]
  | false =>
    simp only [Bool.false_eq_true, if_false]
    simp [handleCollisions, getGroups, groupcollide, dedupFirst, IS_PHYSICS,
      dgetD, dget?, hA, hB, hsA, hsB, hab, hba, haa, hbb, hown, hown2, hne,
      createCollisionEvent_eq, COLLISION, TRIGGER]

/-- Witness for the amended C3 on the trigger pass. -/
theorem C3_self_pair_each_direction_once_witness :
    ((⟨0, 1, false, "s"⟩ : Collider).physics = false ∧
      (⟨1, 2, false, "s"⟩ : Collider).physics = false ∧
      (⟨0, 1, false, "s"⟩ : Collider).scene = "s" ∧
      (⟨1, 2, false, "s"⟩ : Collider).scene = "s" ∧
      (⟨0, 1, false, "s"⟩ : Collider).owner ≠
        (⟨1, 2, false, "s"⟩ : Collider).owner) ∧
    handleCollisions ⟨[("L", [⟨0, 1, false, "s"⟩, ⟨1, 2, false, "s"⟩])],
        [("L", "L")]⟩ (fun _ _ => true) "s" 16
        (if false then COLLISION else TRIGGER) ⟨[], []⟩ =
      (if false then
        { (⟨[], []⟩ : EvState) with sysq := (⟨[], []⟩ : EvState).sysq ++
            [collisionEvent COLLISION ⟨0, 1, false, "s"⟩ ⟨1, 2, false, "s"⟩ 16,
             collisionEvent COLLISION ⟨1, 2, false, "s"⟩ ⟨0, 1, false, "s"⟩ 16] }
      else
        { (⟨[], []⟩ : EvState) with native := (⟨[], []⟩ : EvState).native ++
            [collisionEvent TRIGGER ⟨0, 1, false, "s"⟩ ⟨1, 2, false, "s"⟩ 16,
             collisionEvent TRIGGER ⟨1, 2, false, "s"⟩ ⟨0, 1, false, "s"⟩ 16] }) :=
  ⟨⟨rfl, rfl, rfl, rfl, by decide⟩,
    C3_self_pair_each_direction_once ⟨0, 1, false, "s"⟩ ⟨1, 2, false, "s"⟩ "L"
      (fun _ _ => true) "s" 16 ⟨[], []⟩ false rfl rfl rfl rfl rfl rfl rfl rfl
      (by decide)⟩

/-! ## Claim C10 -/

/-- C10: for any event type other than the `COLLISION` and `TRIGGER` tags,
`handle_collisions` behaves as a trigger pass: the `IS_PHYSICS` lookup falls
back to `False`, so group filtering selects only `physics=false` colliders
(the call is indistinguishable from running on the trigger-only layers),
every emitted event is posted to the native queue (the system queue is left
untouched), and each emitted event carries the given event type. -/
theorem C10_other_event_types_are_trigger_passes (et : Nat)
    (sys : CollisionSys) (ov : Overlap) (activeScene : String) (dt : Int)
    (st : EvState) (h1 : et ≠ COLLISION) (h2 : et ≠ TRIGGER) :
    dgetD IS_PHYSICS et false = false ∧
    (handleCollisions sys ov activeScene dt et st).sysq = st.sysq ∧
    (∀ e ∈ (handleCollisions sys ov activeScene dt et st).native,
      e ∈ st.native ∨ e.etype = et) ∧
    handleCollisions sys ov activeScene dt et st =
      handleCollisions (filterPhysicsFalse sys) ov activeScene dt et st := by
  refine ⟨IS_PHYSICS_other et h1 h2, ?_, ?_, ?_⟩
  · refine handleCollisions_invariant sys ov activeScene dt et st
      (fun s => s.sysq = st.sysq) ?_ rfl
    intro x y s hs
    rw [IS_PHYSICS_other et h1 h2, createCollisionEvent_eq]
    simpa using hs
  · refine handleCollisions_invariant sys ov activeScene dt et st
      (fun s => ∀ e ∈ s.native, e ∈ st.native ∨ e.etype = et) ?_
      (fun e he => Or.inl he)
    intro x y s hs
    rw [createCollisionEvent_eq]
    cases hb : dgetD IS_PHYSICS et false
    · simp only [Bool.false_eq_true, if_false]
      intro e he
      rw [List.mem_append] at he
      rcases he with he | he
      · exact hs e he
      · right
        rw [List.mem_singleton] at he
        rw [he]
        rfl
    · simp only [if_true]
      exact fun e he => hs e he
  · unfold handleCollisions
    rw [show (filterPhysicsFalse sys).interractions = sys.interractions from rfl]
    refine foldl_ext _ _ ?_ _ _
    intro s interr
    rw [IS_PHYSICS_other et h1 h2, getGroups_filterFalse]

/-- Witness for C10: the `NOTIFY` tag run over a one-collider layer. -/
theorem C10_other_event_types_are_trigger_passes_witness :
    (NOTIFY ≠ COLLISION ∧ NOTIFY ≠ TRIGGER) ∧
    (dgetD IS_PHYSICS NOTIFY false = false ∧
     (handleCollisions ⟨[("L", [⟨0, 1, false, "s"⟩])], [("L", "L")]⟩
        (fun _ _ => true) "s" 16 NOTIFY ⟨[], []⟩).sysq =
       (⟨[], []⟩ : EvState).sysq ∧
     (∀ e ∈ (handleCollisions ⟨[("L", [⟨0, 1, false, "s"⟩])], [("L", "L")]⟩
        (fun _ _ => true) "s" 16 NOTIFY ⟨[], []⟩).native,
       e ∈ (⟨[], []⟩ : EvState).native ∨ e.etype = NOTIFY) ∧
     handleCollisions ⟨[("L", [⟨0, 1, false, "s"⟩])], [("L", "L")]⟩
        (fun _ _ => true) "s" 16 NOTIFY ⟨[], []⟩ =
       handleCollisions (filterPhysicsFalse
          ⟨[("L", [⟨0, 1, false, "s"⟩])], [("L", "L")]⟩)
        (fun _ _ => true) "s" 16 NOTIFY ⟨[], []⟩) :=
  ⟨⟨by decide, by decide⟩,
    C10_other_event_types_are_trigger_passes NOTIFY
      ⟨[("L", [⟨0, 1, false, "s"⟩])], [("L", "L")]⟩ (fun _ _ => true) "s" 16
      ⟨[], []⟩ (by decide) (by decide)⟩

/-! ## Claim C9 -/

theorem collisionEvent_listener (et : Nat) (x y : Collider) (dt : Int) :
    dget? (collisionEvent et x y dt).payload "listener" =
      some (PVal.vobj x.owner) := by
  have h1 : ¬("listener" = "collides") := by decide
  have h2 : ¬("listener" = "dt") := by decide
  simp [collisionEvent, dget?, h1, h2]

theorem handleCollisions_listener_mem (sys : CollisionSys) (ov : Overlap)
    (activeScene : String) (dt : Int) (et : Nat) (st : EvState) :
    ∀ e ∈ (handleCollisions sys ov activeScene dt et st).sysq,
      e ∈ st.sysq ∨
        ∃ g, dget? e.payload "listener" = some (PVal.vobj g) := by
  refine handleCollisions_invariant sys ov activeScene dt et st
    (fun s => ∀ e ∈ s.sysq, e ∈ st.sysq ∨
      ∃ g, dget? e.payload "listener" = some (PVal.vobj g)) ?_
    (fun e he => Or.inl he)
  intro x y s hs
  rw [createCollisionEvent_eq]
  cases hb : dgetD IS_PHYSICS et false
  · simp only [Bool.false_eq_true, if_false]
    exact fun e he => hs e he
  · simp only [if_true]
    intro e he
    rw [List.mem_append] at he
    rcases he with he | he
    · exact hs e he
    · right
      rw [List.mem_singleton] at he
      exact ⟨x.owner, he ▸ collisionEvent_listener et x y dt⟩

theorem get_listeners_isSome_of_vobj (c : ListenerContainer) (e : Event)
    (g : Nat) (h : dget? e.payload "listener" = some (PVal.vobj g)) :
    (c.get_listeners e).isSome := by
  simp [ListenerContainer.get_listeners, h]

theorem updateSystem_empty (c : ListenerContainer) (ui : Event → Bool)
    (eff : Effect) (st : EvState) (h : st.sysq = []) :
    updateSystem c ui eff st = ⟨[], st, false, false⟩ := by
  unfold updateSystem sysQueueGet
  rw [h]
  show procEvents c ui eff [] { st with sysq := [] } false = _
  rw [procEvents]
  have h2 : ({ st with sysq := [] } : EvState) = st := by
    cases st with
    | mk n q => simp only at h; rw [h]
  rw [h2]

/-- C9: within one `BaseSystemController.update` over the engine's sequence
hooks (gameplay drain, collision pass, trigger pass, each followed by an
`update_system` drain), every system event enqueued by the collision pass is
delivered — each of its listeners is invoked on it — during that same
controller update (by the drain right after the collision hook), and when no
handler enqueues further system events, the system queue is empty when the
update returns, so nothing carries over to the next frame. -/
theorem C9_collision_events_delivered_same_frame (c : ListenerContainer)
    (ui : Event → Bool) (eff : Effect) (sys : CollisionSys) (ov : Overlap)
    (activeScene : String) (dt : Int) (st : EvState)
    (hui : ∀ e, ui e = false)
    (heff : ∀ h e s, (eff h e s).sysq = s.sysq)
    (hsys0 : st.sysq = []) :
    (∀ e ∈ (handleCollisions sys ov activeScene dt COLLISION
        (updateGameplay c ui eff st).state).sysq,
      ∀ h ∈ hooksOf c e,
        (h.hid, e) ∈ (controllerUpdate c ui eff
          (baseSequenceHooks c ui eff sys ov activeScene dt) st).calls) ∧
    (controllerUpdate c ui eff
        (baseSequenceHooks c ui eff sys ov activeScene dt) st).state.sysq
      = [] := by
  have hst1 : (updateGameplay c ui eff st).state.sysq = [] := by
    rw [updateGameplay_sysq c ui eff st heff, hsys0]
  constructor
  · intro e he h hh
    have hr1 : updateSystem c ui eff ((updateGameplay c ui eff st).state) =
        ⟨[], (updateGameplay c ui eff st).state, false, false⟩ :=
      updateSystem_empty _ _ _ _ hst1
    have hmem : ∀ e2 ∈ (handleCollisions sys ov activeScene dt COLLISION
        (updateGameplay c ui eff st).state).sysq,
        ∃ g, dget? e2.payload "listener" = some (PVal.vobj g) := by
      intro e2 he2
      rcases handleCollisions_listener_mem sys ov activeScene dt COLLISION
        (updateGameplay c ui eff st).state e2 he2 with h0 | h0
      · rw [hst1] at h0
        cases h0
      · exact h0
    have hchar := procEvents_char c ui eff
      (handleCollisions sys ov activeScene dt COLLISION
        (updateGameplay c ui eff st).state).sysq
      { handleCollisions sys ov activeScene dt COLLISION
          (updateGameplay c ui eff st).state with sysq := [] } false
      (fun e2 _ => hui e2)
      (fun e2 he2 => by
        obtain ⟨g, hg⟩ := hmem e2 he2
        exact get_listeners_isSome_of_vobj c e2 g hg)
    have hr2 : updateSystem c ui eff (handleCollisions sys ov activeScene dt
        COLLISION (updateGameplay c ui eff st).state) =
        ⟨flatCalls c (handleCollisions sys ov activeScene dt COLLISION
            (updateGameplay c ui eff st).state).sysq,
          effFold eff c (handleCollisions sys ov activeScene dt COLLISION
              (updateGameplay c ui eff st).state).sysq
            { handleCollisions sys ov activeScene dt COLLISION
                (updateGameplay c ui eff st).state with sysq := [] },
          false || ((handleCollisions sys ov activeScene dt COLLISION
              (updateGameplay c ui eff st).state).sysq.any
            (fun e2 => e2.etype == QUIT)), false⟩ := by
      unfold updateSystem sysQueueGet
      exact hchar
    simp only [baseSequenceHooks, controllerUpdate]
    simp only [hr1]
    simp only [controllerUpdate, hr2]
    simp only [Bool.false_eq_true, if_false, List.nil_append]
    exact List.mem_append_left _ (flatCalls_mem c _ e h he hh)
  · exact controllerUpdate_sysq c ui eff _ st heff (by simp [baseSequenceHooks])

/-- Witness for C9: a self-layer with two overlapping solid colliders, a UI
layer that claims nothing, and listeners that enqueue nothing. -/
theorem C9_collision_events_delivered_same_frame_witness :
    ((∀ e : Event, (fun _ : Event => false) e = false) ∧
     (∀ (h : Hook) (e : Event) (s : EvState),
        ((fun _ _ s2 => s2 : Effect) h e s).sysq = s.sysq) ∧
     (⟨[], []⟩ : EvState).sysq = []) ∧
    ((∀ e ∈ (handleCollisions ⟨[("L", [⟨0, 1, true, "s"⟩, ⟨1, 2, true, "s"⟩])],
          [("L", "L")]⟩ (fun _ _ => true) "s" 16 COLLISION
        (updateGameplay ListenerContainer.empty (fun _ => false)
          (fun _ _ s2 => s2) ⟨[], []⟩).state).sysq,
      ∀ h ∈ hooksOf ListenerContainer.empty e,
        (h.hid, e) ∈ (controllerUpdate ListenerContainer.empty (fun _ => false)
          (fun _ _ s2 => s2)
          (baseSequenceHooks ListenerContainer.empty (fun _ => false)
            (fun _ _ s2 => s2)
            ⟨[("L", [⟨0, 1, true, "s"⟩, ⟨1, 2, true, "s"⟩])], [("L", "L")]⟩
            (fun _ _ => true) "s" 16) ⟨[], []⟩).calls) ∧
     (controllerUpdate ListenerContainer.empty (fun _ => false)
        (fun _ _ s2 => s2)
        (baseSequenceHooks ListenerContainer.empty (fun _ => false)
          (fun _ _ s2 => s2)
          ⟨[("L", [⟨0, 1, true, "s"⟩, ⟨1, 2, true, "s"⟩])], [("L", "L")]⟩
          (fun _ _ => true) "s" 16) ⟨[], []⟩).state.sysq = []) :=
  ⟨⟨fun _ => rfl, fun _ _ _ => rfl, rfl⟩,
    C9_collision_events_delivered_same_frame ListenerContainer.empty
      (fun _ => false) (fun _ _ s2 => s2)
      ⟨[("L", [⟨0, 1, true, "s"⟩, ⟨1, 2, true, "s"⟩])], [("L", "L")]⟩
      (fun _ _ => true) "s" 16 ⟨[], []⟩
      (fun _ => rfl) (fun _ _ _ => rfl) rfl⟩

/-! ## Claim C4 -/

/-- C4 counterexample: `broadcast_scene` with an unknown scene name is *not*
a silent no-op — `scenes.get` yields `None`, `send` is called with
`targets=[None]`, and one event with `listener=None` is posted to the native
queue. -/
theorem C4_unknown_scene_posts_event_counterexample :
    (broadcastScene 7 "missing" [("k", PVal.vint 1)] false [] ⟨[], []⟩).native =
      [⟨7, [("k", PVal.vint 1), ("listener", PVal.vnull)]⟩] ∧
    broadcastScene 7 "missing" [("k", PVal.vint 1)] false [] ⟨[], []⟩ ≠
      (⟨[], []⟩ : EvState) :=
  ⟨rfl, by decide⟩

/-- C4 (amended): `broadcast_scene` with an unknown scene name raises no
exception, but it is not a no-op: `send` runs with `targets=[None]`, so
exactly one event whose `listener` attribute is `None` is enqueued (to the
native queue when `system=False`, to the `SystemEventQueue` when
`system=True`); at dispatch that event is routed to the *global broadcast*
bucket (key `None`), not to any scene bucket. -/
theorem C4_unknown_scene_not_noop (et : Nat) (nm : String)
    (data : List (String × PVal)) (system : Bool)
    (scenes : List (String × SceneObj)) (st : EvState) (c : ListenerContainer)
    (hmiss : dget? scenes nm = none) :
    broadcastScene et nm data system scenes st =
      sendEvent et (some [PVal.vnull]) data system st ∧
    (system = false → broadcastScene et nm data system scenes st =
      { st with native := st.native ++
          [⟨et, dinsert data "listener" PVal.vnull⟩] }) ∧
    (system = true → broadcastScene et nm data system scenes st =
      { st with sysq := st.sysq ++
          [⟨et, dinsert data "listener" PVal.vnull⟩] }) ∧
    (c.get_listeners ⟨et, dinsert data "listener" PVal.vnull⟩ =
      some (readListener c.broadcast_listeners et none)) := by
  have hsend : broadcastScene et nm data system scenes st =
      sendEvent et (some [PVal.vnull]) data system st := by
    unfold broadcastScene
    rw [hmiss]
  refine ⟨hsend, ?_, ?_, ?_⟩
  · intro hs
    subst hs
    rw [hsend]
    simp [sendEvent]
  · intro hs
    subst hs
    rw [hsend]
    simp [sendEvent]
  · simp [ListenerContainer.get_listeners, dget?_dinsert_self]

/-- Witness for the amended C4 at an empty scene registry. -/
theorem C4_unknown_scene_not_noop_witness :
    (dget? ([] : List (String × SceneObj)) "missing" = none) ∧
    (broadcastScene 7 "missing" [("k", PVal.vint 1)] false [] ⟨[], []⟩ =
      sendEvent 7 (some [PVal.vnull]) [("k", PVal.vint 1)] false ⟨[], []⟩ ∧
    (false = false → broadcastScene 7 "missing" [("k", PVal.vint 1)] false []
        ⟨[], []⟩ =
      { (⟨[], []⟩ : EvState) with native := (⟨[], []⟩ : EvState).native ++
          [⟨7, dinsert [("k", PVal.vint 1)] "listener" PVal.vnull⟩] }) ∧
    (false = true → broadcastScene 7 "missing" [("k", PVal.vint 1)] false []
        ⟨[], []⟩ =
      { (⟨[], []⟩ : EvState) with sysq := (⟨[], []⟩ : EvState).sysq ++
          [⟨7, dinsert [("k", PVal.vint 1)] "listener" PVal.vnull⟩] }) ∧
    (ListenerContainer.empty.get_listeners
        ⟨7, dinsert [("k", PVal.vint 1)] "listener" PVal.vnull⟩ =
      some (readListener ListenerContainer.empty.broadcast_listeners 7 none))) :=
  ⟨rfl, C4_unknown_scene_not_noop 7 "missing" [("k", PVal.vint 1)] false []
    ⟨[], []⟩ ListenerContainer.empty rfl⟩

/-! ## Claim C5 -/

/-- C5 (code bug evidence): registering two hooks for the same event type
with the same component owner (a listener exposing `source`) loses the first
hook.  `_add_listener_to` looks the method list up under the *un-normalised*
component key but stores it under the normalised owning object, so the
second registration finds no entry for the component, builds a fresh list,
and overwrites the owner's bucket: after both calls the container holds only
the second callable, and dispatch to the owner invokes only it. -/
theorem C5_component_reregistration_drops_hook :
    (registerEventHook (registerEventHook ListenerContainer.empty 5
        (Owner.comp 7 3) ⟨1, Owner.comp 7 3⟩) 5 (Owner.comp 7 3)
        ⟨2, Owner.comp 7 3⟩).listeners =
      [(5, [(Owner.gobj 3, [⟨2, Owner.comp 7 3⟩])])] ∧
    (registerEventHook (registerEventHook ListenerContainer.empty 5
        (Owner.comp 7 3) ⟨1, Owner.comp 7 3⟩) 5 (Owner.comp 7 3)
        ⟨2, Owner.comp 7 3⟩).get_listeners ⟨5, [("listener", PVal.vobj 3)]⟩ =
      some [⟨2, Owner.comp 7 3⟩] :=
  ⟨rfl, rfl⟩

/-! ## Claim C8 -/

/-- C8 (code bug evidence): a hook registered via
`register_broadcast_hook(event_type, scene, hook)` with an actual scene
object (as the `IScene | None` signature prescribes) is stored under the
scene *object* key, but `get_listeners` looks broadcast-scene events up
under the scene's *name* string; the dispatch of the event produced by
`broadcast_scene` therefore finds no listeners, even though the hook is in
the container. -/
theorem C8_scene_object_hook_unreachable :
    readListener (registerBroadcastHook ListenerContainer.empty 5
        (some (BKey.scn ⟨0, "level"⟩)) ⟨9, Owner.gobj 4⟩).broadcast_listeners 5
      (some (BKey.scn ⟨0, "level"⟩)) = [⟨9, Owner.gobj 4⟩] ∧
    broadcastScene 5 "level" [] false [("level", ⟨0, "level"⟩)] ⟨[], []⟩ =
      ⟨[⟨5, [("listener", PVal.vscene ⟨0, "level"⟩)]⟩], []⟩ ∧
    (registerBroadcastHook ListenerContainer.empty 5
        (some (BKey.scn ⟨0, "level"⟩)) ⟨9, Owner.gobj 4⟩).get_listeners
      ⟨5, [("listener", PVal.vscene ⟨0, "level"⟩)]⟩ = some [] :=
  ⟨rfl, rfl, rfl⟩

end PgEngine
